import Mathlib

/-!
A shallow embedding of the session/request-lifecycle manager implemented by
`ChatGPTViewProvider` in `src/extension.ts` of the chatgpt-vscode extension.

The provider's fields become a `ProviderState` record.  The asynchronous
control flow of `sendMessageAndGetResponse` is split at its suspension
points: the synchronous part up to the `await this._chatGPTAPI.sendMessage`
call is the `dispatch` event, each invocation of the `onProgress` callback
is a `progressEv` event, and the settlement of the awaited promise is an
`okEv` (fulfilled) or `errEv` (rejected: backend error, timeout, or abort
signal) event.  A pending request's captured locals (`currentMessageNumber`,
the local `response` accumulator, the options object built at call time)
live in a `PendingReq` record stored in `pending`; settled slots are marked
`none`.  Webview messages (`this._view?.webview.postMessage`) are logged in
order in `View.msgs`; the external network and the host editor are the
environment, which chooses the event sequence.  All functions are total:
the TypeScript never throws across these operations.
-/

namespace ChatGPTExtension

/-- `type WorkingState = 'idle' | 'asking'` (extension.ts:15). -/
inductive WorkingState where
  | idle
  | asking
deriving DecidableEq

/-- `type AuthInfo = {mode?, apiKey?, accessToken?, proxyUrl?}` (extension.ts:8-13).
Optional string fields; JS falsiness of `""` and `undefined` is handled at use
sites. -/
structure AuthInfo where
  mode : Option String
  apiKey : Option String
  accessToken : Option String
  proxyUrl : Option String
deriving DecidableEq

/-- `type Settings = {selectedInsideCodeblock?, keepConversation?, timeoutLength?}`
(extension.ts:14), with the provider's defaults always present
(extension.ts:124-128), so the fields are total here. -/
structure Settings where
  selectedInsideCodeblock : Bool
  keepConversation : Bool
  timeoutLength : Nat
deriving DecidableEq

/-- A merge patch for `setSettings` (extension.ts:142-144): only the supplied
keys are overwritten. -/
structure SettingsPatch where
  selectedInsideCodeblock : Option Bool
  keepConversation : Option Bool
  timeoutLength : Option Nat
deriving DecidableEq

/-- The constructed `this._chatGPTAPI`: either `new ChatGPTAPI({apiKey})`
(extension.ts:170-173) or `new ChatGPTUnofficialProxyAPI({accessToken,
apiReverseProxyUrl})` (extension.ts:181-185).  The network client itself is
external; only its identity-bearing construction data is kept. -/
inductive ChatBackend where
  | direct (apiKey : String)
  | proxied (accessToken : String) (proxyUrl : String)
deriving DecidableEq

/-- The conversation continuation stored in `this._conversation`
(extension.ts:340-343): `{conversationId: res.conversationId,
parentMessageId: res.id}`. -/
structure Conversation where
  conversationId : Option String
  parentMessageId : String
deriving DecidableEq

/-- The resolved value of `this._chatGPTAPI.sendMessage(...)`: `res.text`,
`res.conversationId`, `res.id`. -/
structure ChatResult where
  text : String
  conversationId : Option String
  id : String
deriving DecidableEq

/-- Messages posted to the webview (`postMessage`), extension.ts:152, 250-251,
305, 324, 332, 346, 359, 366. -/
inductive Msg where
  | setWorkingState (v : WorkingState)
  | setPrompt (v : Option String)
  | addResponse (v : String)
deriving DecidableEq

/-- The webview (`this._view`): whether it is visible, plus the log of posted
messages in order. -/
structure View where
  visible : Bool
  msgs : List Msg
deriving DecidableEq

/-- The locals captured by one in-flight `sendMessage` call
(extension.ts:312-330): the generation `currentMessageNumber` captured after
the increment, the prompt sent, the abort-controller whose `signal` was
passed, the spread `...this._conversation`, the computed `timeoutMs`, and the
closure-local `response` accumulator written by `onProgress`. -/
structure PendingReq where
  gen : Nat
  sentPrompt : String
  tokenId : Nat
  conv : Option Conversation
  timeoutMs : Nat
  acc : String
deriving DecidableEq

/-- The fields of `ChatGPTViewProvider` (extension.ts:107-134) plus the
abort-controller bookkeeping (`ctrlId` is the identity of the live
`AbortController`; `signalled` the ids whose `abort()` was called) and the
list of in-flight request slots (`none` = settled). -/
structure ProviderState where
  backend : Option ChatBackend
  conversation : Option Conversation
  currentMessageNumber : Nat
  workingState : WorkingState
  settings : Settings
  authInfo : Option AuthInfo
  response : Option String
  prompt : Option String
  fullPrompt : Option String
  ctrlId : Nat
  signalled : List Nat
  view : Option View
  pending : List (Option PendingReq)
deriving DecidableEq

/-- `this._view?.webview.postMessage(m)`: appended to the log when a view
exists, otherwise a no-op. -/
def postMsg (st : ProviderState) (m : Msg) : ProviderState :=
  { st with view := st.view.map fun v => { v with msgs := v.msgs ++ [m] } }

/-- `this._view?.show?.(true)` (extension.ts:270, 358). -/
def showView (st : ProviderState) : ProviderState :=
  { st with view := st.view.map fun v => { v with visible := true } }

/-- `this._view && this._view.visible` (extension.ts:322). -/
def viewVisible (st : ProviderState) : Bool :=
  (st.view.map View.visible).getD false

/-- The messages posted so far (empty when no view has been resolved). -/
def viewMsgs (st : ProviderState) : List Msg :=
  (st.view.map View.msgs).getD []

/-- The messages posted between an earlier state and a later one. -/
def postedAfter (st st' : ProviderState) : List Msg :=
  (viewMsgs st').drop (viewMsgs st).length

/-- `_setWorkingState` (extension.ts:150-153): set the field, then post the
new value. -/
def setWorkingStateFn (st : ProviderState) (mode : WorkingState) : ProviderState :=
  postMsg { st with workingState := mode } (Msg.setWorkingState mode)

/-- The backend construction of `_newAPI` (extension.ts:166-187): on mode
`"ChatGPTAPI"` a non-falsy `apiKey` is required, on
`"ChatGPTUnofficialProxyAPI"` non-falsy `accessToken` and `proxyUrl`; any
other mode, or a missing field, yields no backend (only a console warning). -/
def buildBackend (a : AuthInfo) : Option ChatBackend :=
  if a.mode = some "ChatGPTAPI" then
    match a.apiKey with
    | some k => if k = "" then none else some (ChatBackend.direct k)
    | none => none
  else if a.mode = some "ChatGPTUnofficialProxyAPI" then
    match a.accessToken, a.proxyUrl with
    | some t, some u =>
        if t = "" then none else if u = "" then none else some (ChatBackend.proxied t u)
    | _, _ => none
  else none

/-- `_newAPI` (extension.ts:156-189): always clears `this._conversation` and
resets `this._currentMessageNumber` to 0, then attempts construction; on any
failure (`this._authInfo` unset, unknown mode, missing credential) the old
`this._chatGPTAPI` is left in place. -/
def newAPIFn (st : ProviderState) : ProviderState :=
  { st with
    conversation := none
    currentMessageNumber := 0
    backend :=
      match st.authInfo.bind buildBackend with
      | some b => some b
      | none => st.backend }

/-- `setAuthenticationInfo` (extension.ts:137-140). -/
def setAuthenticationInfo (st : ProviderState) (a : AuthInfo) : ProviderState :=
  newAPIFn { st with authInfo := some a }

/-- `setSettings` (extension.ts:142-144): `{...this._settings, ...settings}`. -/
def setSettingsFn (st : ProviderState) (p : SettingsPatch) : ProviderState :=
  { st with
    settings :=
      { selectedInsideCodeblock := p.selectedInsideCodeblock.getD st.settings.selectedInsideCodeblock
        keepConversation := p.keepConversation.getD st.settings.keepConversation
        timeoutLength := p.timeoutLength.getD st.settings.timeoutLength } }

/-- `resetConversation` (extension.ts:241-252). -/
def resetConversationFn (st : ProviderState) : ProviderState :=
  let st := { st with
    conversation := none
    currentMessageNumber := 0
    prompt := some ""
    response := some ""
    fullPrompt := some "" }
  let st := postMsg st (Msg.setPrompt (some ""))
  postMsg st (Msg.addResponse "")

/-- The literal synthesized when `this._chatGPTAPI` is undefined
(extension.ts:299). -/
def errLiteral : String :=
  "[ERROR] \"API key not set or wrong, please go to extension settings to set it (read README.md for more info)\""

/-- The trailer appended in the catch block (extension.ts:349). -/
def errTrailer (e : String) : String :=
  "\n\n---\n[ERROR] " ++ e

/-- The tail of `sendMessageAndGetResponse` (extension.ts:353-360):
`this._response = response`, then if a view exists, `show(true)` and post
the response. -/
def finishPublish (st : ProviderState) (resp : String) : ProviderState :=
  postMsg (showView { st with response := some resp }) (Msg.addResponse resp)

/-- The effective-prompt construction of `searchSelection`
(extension.ts:280-290): with a non-falsy selection, wrap it in a fenced code
block when `selectedInsideCodeblock` is set, otherwise join with newlines;
with no (or an empty) selection the raw prompt is used verbatim. -/
def buildSearchPrompt (settings : Settings) (prompt : String)
    (selectedText : Option String) : String :=
  match selectedText with
  | some sel =>
      if sel = "" then prompt
      else if settings.selectedInsideCodeblock then
        prompt ++ "\n```\n" ++ sel ++ "\n```"
      else
        prompt ++ "\n" ++ sel ++ "\n"
  | none => prompt

/-- The synchronous part of `sendMessageAndGetResponse` (extension.ts:296-330):
without a backend, synthesize `errLiteral` and run the publishing tail;
with a backend, post the prompt echo, increment `this._currentMessageNumber`,
`_setWorkingState('asking')`, and start the request, capturing
`currentMessageNumber`, the current abort signal, `timeoutMs =
(timeoutLength || 60) * 1000`, and the spread `...this._conversation`. -/
def sendStart (st : ProviderState) (searchPrompt : String) : ProviderState :=
  match st.backend with
  | none => finishPublish st errLiteral
  | some _ =>
      let st := postMsg st (Msg.setPrompt st.prompt)
      let st := { st with currentMessageNumber := st.currentMessageNumber + 1 }
      let st := setWorkingStateFn st WorkingState.asking
      { st with
        pending := st.pending ++ [some
          { gen := st.currentMessageNumber
            sentPrompt := searchPrompt
            tokenId := st.ctrlId
            conv := st.conversation
            timeoutMs := (if st.settings.timeoutLength = 0 then 60
                          else st.settings.timeoutLength) * 1000
            acc := "" }] }

/-- `searchSelection` (extension.ts:255-294): store the prompt, lazily retry
`_newAPI` when no backend exists, show the view, clear `this._response`,
build the effective prompt from the editor selection, store it, and call
`sendMessageAndGetResponse` (whose synchronous part is `sendStart`). -/
def searchSelection (st : ProviderState) (rawPrompt : String)
    (selectedText : Option String) : ProviderState :=
  let st := { st with prompt := some rawPrompt }
  let st := if st.backend.isNone then newAPIFn st else st
  let st := showView st
  let st := { st with response := some "" }
  let sp := buildSearchPrompt st.settings rawPrompt selectedText
  let st := { st with fullPrompt := some sp }
  sendStart st sp

/-- One `onProgress` invocation (extension.ts:316-326): return early when the
captured generation is no longer current; otherwise, only when the view
exists and is visible, record the partial text in the closure-local
accumulator and post it. -/
def progressFn (st : ProviderState) (i : Nat) (text : String) : ProviderState :=
  match st.pending[i]? with
  | some (some req) =>
      if st.currentMessageNumber ≠ req.gen then st
      else if viewVisible st then
        postMsg { st with pending := st.pending.set i (some { req with acc := text }) }
          (Msg.addResponse text)
      else st
  | _ => st

/-- Fulfilment of the awaited `sendMessage` (extension.ts:332-344 and the tail
353-360): post `setWorkingState idle` to the webview (the field is not
touched), then return early if stale; otherwise take `res.text` as the
response, store the conversation identifiers when `keepConversation` is set,
and run the publishing tail. -/
def resolveOkFn (st : ProviderState) (i : Nat) (res : ChatResult) : ProviderState :=
  match st.pending[i]? with
  | some (some req) =>
      let st := postMsg st (Msg.setWorkingState WorkingState.idle)
      if st.currentMessageNumber ≠ req.gen then
        { st with pending := st.pending.set i none }
      else
        let st :=
          if st.settings.keepConversation then
            { st with conversation := some ⟨res.conversationId, res.id⟩ }
          else st
        let st := finishPublish st res.text
        { st with pending := st.pending.set i none }
  | _ => st

/-- Rejection of the awaited `sendMessage` — backend error, timeout, or the
abort signal firing (extension.ts:345-350 and the tail 353-360): post
`setWorkingState idle` to the webview, append the error trailer to the
accumulated partial text, and run the publishing tail; there is no staleness
check on this path. -/
def resolveErrFn (st : ProviderState) (i : Nat) (err : String) : ProviderState :=
  match st.pending[i]? with
  | some (some req) =>
      let st := postMsg st (Msg.setWorkingState WorkingState.idle)
      let st := finishPublish st (req.acc ++ errTrailer err)
      { st with pending := st.pending.set i none }
  | _ => st

/-- `abort` (extension.ts:365-371): post `setWorkingState idle` to the
webview, signal the live abort controller, and replace it with a fresh one. -/
def abortFn (st : ProviderState) : ProviderState :=
  let st := postMsg st (Msg.setWorkingState WorkingState.idle)
  { st with signalled := st.ctrlId :: st.signalled, ctrlId := st.ctrlId + 1 }

/-- The raw configuration keys read by `activate`
(extension.ts:27-32, 80-86). -/
structure RawConfig where
  mode : Option String
  apiKey : Option String
  accessToken : Option String
  proxyUrl : Option String
  customProxyUrl : Option String
deriving DecidableEq

/-- The `AuthInfo` assembled from configuration (extension.ts:27-32, 81-86):
`proxyUrl === "Custom"` selects `customProxyUrl`. -/
def authFromConfig (c : RawConfig) : AuthInfo :=
  { mode := c.mode
    apiKey := c.apiKey
    accessToken := c.accessToken
    proxyUrl := if c.proxyUrl = some "Custom" then c.customProxyUrl else c.proxyUrl }

/-- JS `n || d` for an optionally-present number: `undefined` and `0` are
falsy (extension.ts:36, 98). -/
def jsOrNat (v : Option Nat) (d : Nat) : Nat :=
  match v with
  | some n => if n = 0 then d else n
  | none => d

/-- Which configuration change fired, with the freshly read values
(extension.ts:73-100). -/
inductive CfgEvent where
  | authChanged (c : RawConfig)
  | codeblockChanged (v : Option Bool)
  | keepChanged (v : Option Bool)
  | timeoutChanged (v : Option Nat)
deriving DecidableEq

/-- The `onDidChangeConfiguration` handler (extension.ts:73-100): an auth key
change re-reads auth, rebuilds the API and resets the conversation; each of
the three plain settings keys is merge-patched alone (`|| false` and
`|| 60` defaulting as in JS). -/
def onConfigChange (st : ProviderState) : CfgEvent → ProviderState
  | CfgEvent.authChanged c =>
      resetConversationFn (setAuthenticationInfo st (authFromConfig c))
  | CfgEvent.codeblockChanged v =>
      setSettingsFn st
        { selectedInsideCodeblock := some (v.getD false)
          keepConversation := none
          timeoutLength := none }
  | CfgEvent.keepChanged v =>
      setSettingsFn st
        { selectedInsideCodeblock := none
          keepConversation := some (v.getD false)
          timeoutLength := none }
  | CfgEvent.timeoutChanged v =>
      setSettingsFn st
        { selectedInsideCodeblock := none
          keepConversation := none
          timeoutLength := some (jsOrNat v 60) }

/-- The events the environment (editor, webview, network) can deliver. -/
inductive Event where
  | dispatch (rawPrompt : String) (selectedText : Option String)
  | progressEv (i : Nat) (text : String)
  | okEv (i : Nat) (res : ChatResult)
  | errEv (i : Nat) (err : String)
  | abortEv
  | authEv (a : AuthInfo)
  | settingsEv (p : SettingsPatch)
  | cfgEv (c : CfgEvent)
  | resetEv
  | viewEv (visible : Bool)
  | loadedEv
deriving DecidableEq

/-- One step of the provider: `dispatch` is `searchSelection`, `viewEv` is
`resolveWebviewView` installing a fresh webview, `loadedEv` is the
`webviewLoaded` message (which re-posts the internal working-state field,
extension.ts:212-215); the rest are as named. -/
def step (st : ProviderState) : Event → ProviderState
  | Event.dispatch p sel => searchSelection st p sel
  | Event.progressEv i t => progressFn st i t
  | Event.okEv i r => resolveOkFn st i r
  | Event.errEv i e => resolveErrFn st i e
  | Event.abortEv => abortFn st
  | Event.authEv a => setAuthenticationInfo st a
  | Event.settingsEv p => setSettingsFn st p
  | Event.cfgEv c => onConfigChange st c
  | Event.resetEv => resetConversationFn st
  | Event.viewEv vis => { st with view := some { visible := vis, msgs := [] } }
  | Event.loadedEv => postMsg st (Msg.setWorkingState st.workingState)

/-- Run a sequence of events. -/
def runFrom (st : ProviderState) (es : List Event) : ProviderState :=
  es.foldl step st

/-- The provider as constructed (extension.ts:115-134): idle, default
settings, no backend, no view, fresh abort controller `0`. -/
def initState : ProviderState :=
  { backend := none
    conversation := none
    currentMessageNumber := 0
    workingState := WorkingState.idle
    settings := { selectedInsideCodeblock := false, keepConversation := true, timeoutLength := 60 }
    authInfo := none
    response := none
    prompt := none
    fullPrompt := none
    ctrlId := 0
    signalled := []
    view := none
    pending := [] }

/-- A state the provider can actually be in. -/
def Reachable (st : ProviderState) : Prop :=
  ∃ es : List Event, runFrom initState es = st

/-- A valid direct-API auth configuration used in concrete runs. -/
def authA : AuthInfo :=
  { mode := some "ChatGPTAPI", apiKey := some "k", accessToken := none, proxyUrl := none }

/-- A concrete backend result used in concrete runs. -/
def resM : ChatResult :=
  { text := "ans", conversationId := some "c", id := "m" }

/-- Concrete run: visible view, valid auth, one prompt dispatched and still
in flight. -/
def onePromptRun : ProviderState :=
  runFrom initState [Event.viewEv true, Event.authEv authA, Event.dispatch "A" none]

/-- Concrete run: visible view, valid auth, prompt A dispatched and then
prompt B dispatched before A's backend call settles. -/
def twoPromptRun : ProviderState :=
  runFrom initState [Event.viewEv true, Event.authEv authA,
    Event.dispatch "A" none, Event.dispatch "B" none]

/-- Concrete run: a request of generation 1 is outstanding when the auth
configuration is re-applied, rebuilding the backend. -/
def rebuildRun : ProviderState :=
  runFrom initState [Event.authEv authA, Event.dispatch "G" none, Event.authEv authA]

/-- `rebuildRun` followed by one fresh dispatch after the rebuild, so the
generation counter has climbed back to the outstanding stale generation. -/
def abaRun : ProviderState :=
  runFrom initState [Event.authEv authA, Event.dispatch "G" none,
    Event.authEv authA, Event.dispatch "H" none]

/-- Concrete run: one successful request with `keepConversation = true`, then
`keepConversation` toggled to `false`, then a second prompt dispatched. -/
def toggleRun : ProviderState :=
  runFrom initState [Event.authEv authA, Event.dispatch "p1" none, Event.okEv 0 resM,
    Event.settingsEv ⟨none, some false, none⟩, Event.dispatch "p2" none]

/-- Concrete run: one request dispatched with `keepConversation = true` still
outstanding. -/
def keepRun : ProviderState :=
  runFrom initState [Event.authEv authA, Event.dispatch "p1" none]

/-- Concrete run: only a visible view resolved, no auth ever configured. -/
def bareViewRun : ProviderState :=
  runFrom initState [Event.viewEv true]

section ListHelpers

variable {α : Type}

theorem dropLen_append (l₁ l₂ : List α) : (l₁ ++ l₂).drop l₁.length = l₂ := by
  induction l₁ with
  | nil => rfl
  | cons a t ih => simp [ih]

theorem getLen_append (l₁ : List α) (a : α) (l₂ : List α) :
    (l₁ ++ a :: l₂)[l₁.length]? = some a := by
  induction l₁ with
  | nil => simp
  | cons b t ih => simpa using ih

theorem lt_of_getElem?_some : ∀ (l : List α) (i : Nat) (a : α), l[i]? = some a → i < l.length
  | [], i, a, h => by simp at h
  | b :: t, 0, a, _ => Nat.succ_pos _
  | b :: t, i + 1, a, h => Nat.succ_lt_succ (lt_of_getElem?_some t i a (by simpa using h))

theorem getElem?_set_self : ∀ (l : List α) (i : Nat) (a : α), i < l.length →
    (l.set i a)[i]? = some a
  | b :: t, 0, a, _ => by simp
  | b :: t, i + 1, a, h => by
      simpa using getElem?_set_self t i a (Nat.lt_of_succ_lt_succ h)
  | [], i, a, h => absurd h (by simp)

end ListHelpers

/-- Field-level description of `searchSelection` when a backend is already
present: the lazy `_newAPI` retry is skipped, the message number is
incremented, the working state is set to asking, and a pending request
capturing the new generation, the live abort token, and the current
conversation is appended. -/
theorem dispatch_some_fields (st : ProviderState) (p : String) (sel : Option String)
    (b : ChatBackend) (hb : st.backend = some b) :
    (searchSelection st p sel).pending =
      st.pending ++ [some
        { gen := st.currentMessageNumber + 1
          sentPrompt := buildSearchPrompt st.settings p sel
          tokenId := st.ctrlId
          conv := st.conversation
          timeoutMs := (if st.settings.timeoutLength = 0 then 60
                        else st.settings.timeoutLength) * 1000
          acc := "" }]
    ∧ (searchSelection st p sel).currentMessageNumber = st.currentMessageNumber + 1
    ∧ (searchSelection st p sel).workingState = WorkingState.asking
    ∧ (searchSelection st p sel).backend = some b
    ∧ (searchSelection st p sel).conversation = st.conversation
    ∧ (searchSelection st p sel).ctrlId = st.ctrlId := by
  unfold searchSelection sendStart
  simp [hb, postMsg, showView, setWorkingStateFn]

/-- Message-level description of `searchSelection` with a backend and a view:
the prompt echo and the asking working state are posted. -/
theorem dispatch_some_msgs (st : ProviderState) (p : String) (sel : Option String)
    (b : ChatBackend) (v : View) (hb : st.backend = some b) (hv : st.view = some v) :
    (searchSelection st p sel).view =
      some { visible := true
             msgs := v.msgs ++ [Msg.setPrompt (some p),
                                Msg.setWorkingState WorkingState.asking] } := by
  unfold searchSelection sendStart
  simp [hb, hv, postMsg, showView, setWorkingStateFn]

/-- Field-level description of `searchSelection` when there is no backend and
the lazy `_newAPI` retry also fails: the error literal is stored and
published, and the working-state field is untouched. -/
theorem dispatch_none_fields (st : ProviderState) (p : String) (sel : Option String)
    (hb : st.backend = none) (hfail : st.authInfo.bind buildBackend = none) :
    (searchSelection st p sel).response = some errLiteral
    ∧ (searchSelection st p sel).workingState = st.workingState
    ∧ (searchSelection st p sel).backend = none
    ∧ ∀ v, st.view = some v → (searchSelection st p sel).view =
        some { visible := true, msgs := v.msgs ++ [Msg.addResponse errLiteral] } := by
  unfold searchSelection sendStart newAPIFn finishPublish
  refine ⟨?_, ?_, ?_, ?_⟩ <;>
    simp [hb, hfail, postMsg, showView]
  intro v hv
  simp [hv]

/-- If a dispatch ends with no backend, it went through the error branch:
the working-state field is unchanged and there was no backend to begin with. -/
theorem dispatch_invCase (st : ProviderState) (p : String) (sel : Option String)
    (h2 : (searchSelection st p sel).backend = none) :
    (searchSelection st p sel).workingState = st.workingState ∧ st.backend = none := by
  rcases hb : st.backend with _ | b
  · rcases hn : st.authInfo.bind buildBackend with _ | b'
    · refine ⟨?_, rfl⟩
      unfold searchSelection sendStart newAPIFn finishPublish
      simp [hb, hn, postMsg, showView]
    · exfalso
      unfold searchSelection sendStart newAPIFn setWorkingStateFn at h2
      simp [hb, hn, postMsg, showView] at h2
  · exfalso
    unfold searchSelection sendStart setWorkingStateFn at h2
    simp [hb, postMsg, showView] at h2

theorem progressFn_frame (st : ProviderState) (i : Nat) (t : String) :
    (progressFn st i t).workingState = st.workingState
    ∧ (progressFn st i t).backend = st.backend := by
  unfold progressFn
  split
  · split
    · exact ⟨rfl, rfl⟩
    · split
      · exact ⟨rfl, rfl⟩
      · exact ⟨rfl, rfl⟩
  · exact ⟨rfl, rfl⟩

theorem resolveOkFn_frame (st : ProviderState) (i : Nat) (r : ChatResult) :
    (resolveOkFn st i r).workingState = st.workingState
    ∧ (resolveOkFn st i r).backend = st.backend := by
  rcases h : st.pending[i]? with _ | (_ | req)
  · simp [resolveOkFn, h]
  · simp [resolveOkFn, h]
  · simp only [resolveOkFn, finishPublish, postMsg, showView, h]
    constructor <;> (split_ifs <;> rfl)

theorem resolveErrFn_frame (st : ProviderState) (i : Nat) (e : String) :
    (resolveErrFn st i e).workingState = st.workingState
    ∧ (resolveErrFn st i e).backend = st.backend := by
  rcases h : st.pending[i]? with _ | (_ | req)
  · simp [resolveErrFn, h]
  · simp [resolveErrFn, h]
  · simp [resolveErrFn, finishPublish, postMsg, showView, h]

theorem resetConversationFn_backend (st : ProviderState) :
    (resetConversationFn st).backend = st.backend := rfl

/-- `_newAPI` only ever installs a backend; if none is present afterwards,
none was present before. -/
theorem newAPI_backend_none {st : ProviderState} (h : (newAPIFn st).backend = none) :
    st.backend = none := by
  unfold newAPIFn at h
  rcases hn : st.authInfo.bind buildBackend with _ | b
  · simpa [hn] using h
  · simp [hn] at h

/-- The invariant "no backend implies the working-state field is idle" is
preserved by every event. -/
theorem stepIdleInv (st : ProviderState) (e : Event)
    (h : st.backend = none → st.workingState = WorkingState.idle)
    (h2 : (step st e).backend = none) : (step st e).workingState = WorkingState.idle := by
  cases e with
  | dispatch p sel =>
      obtain ⟨hw, hbn⟩ := dispatch_invCase st p sel h2
      rw [show step st (Event.dispatch p sel) = searchSelection st p sel from rfl, hw]
      exact h hbn
  | progressEv i t =>
      obtain ⟨hw, hbk⟩ := progressFn_frame st i t
      simp only [step] at h2 ⊢
      rw [hw]; rw [hbk] at h2; exact h h2
  | okEv i r =>
      obtain ⟨hw, hbk⟩ := resolveOkFn_frame st i r
      simp only [step] at h2 ⊢
      rw [hw]; rw [hbk] at h2; exact h h2
  | errEv i e =>
      obtain ⟨hw, hbk⟩ := resolveErrFn_frame st i e
      simp only [step] at h2 ⊢
      rw [hw]; rw [hbk] at h2; exact h h2
  | abortEv => exact h h2
  | authEv a =>
      simp only [step, setAuthenticationInfo] at h2 ⊢
      exact h (@newAPI_backend_none { st with authInfo := some a } h2)
  | settingsEv p => exact h h2
  | cfgEv c =>
      cases c with
      | authChanged cc =>
          simp only [step, onConfigChange] at h2 ⊢
          rw [resetConversationFn_backend] at h2
          unfold setAuthenticationInfo at h2
          exact h (@newAPI_backend_none { st with authInfo := some (authFromConfig cc) } h2)
      | codeblockChanged v => exact h h2
      | keepChanged v => exact h h2
      | timeoutChanged v => exact h h2
  | resetEv => exact h h2
  | viewEv vis => exact h h2
  | loadedEv => exact h h2

theorem runFromIdleInv (es : List Event) : ∀ st : ProviderState,
    (st.backend = none → st.workingState = WorkingState.idle) →
    (runFrom st es).backend = none → (runFrom st es).workingState = WorkingState.idle := by
  induction es with
  | nil => exact fun st h h2 => h h2
  | cons e t ih => exact fun st h h2 => ih (step st e) (fun hb => stepIdleInv st e h hb) h2

/-- In every reachable state, if no backend has been constructed then the
internal working-state field is idle (asking is only ever entered on the
backend-present dispatch path, and a backend is never discarded). -/
theorem reachableIdleInv (st : ProviderState) (hr : Reachable st) (hb : st.backend = none) :
    st.workingState = WorkingState.idle := by
  obtain ⟨es, rfl⟩ := hr
  exact runFromIdleInv es initState (fun _ => rfl) hb

/-- Claim C5: for every raw prompt and editor selection, the effective prompt
is: with a non-empty selection and `selectedInsideCodeblock = true`, the
prompt, a newline, and the selection wrapped in a fenced code block; with
`selectedInsideCodeblock = false`, the prompt, newline, selection, newline;
with no selection, the raw prompt verbatim. -/
theorem claim5_effectivePrompt (settings : Settings) (p sel : String) (hsel : sel ≠ "") :
    (settings.selectedInsideCodeblock = true →
        buildSearchPrompt settings p (some sel) = p ++ "\n```\n" ++ sel ++ "\n```")
    ∧ (settings.selectedInsideCodeblock = false →
        buildSearchPrompt settings p (some sel) = p ++ "\n" ++ sel ++ "\n")
    ∧ buildSearchPrompt settings p none = p := by
  refine ⟨fun hc => ?_, fun hc => ?_, rfl⟩ <;> simp [buildSearchPrompt, hsel, hc]

theorem claim5_effectivePrompt_witness :
    (buildSearchPrompt ⟨true, true, 60⟩ "fix" (some "x=1") = "fix" ++ "\n```\n" ++ "x=1" ++ "\n```")
    ∧ (buildSearchPrompt ⟨false, true, 60⟩ "fix" (some "x=1") = "fix" ++ "\n" ++ "x=1" ++ "\n")
    ∧ ("fix" ++ "\n```\n" ++ "x=1" ++ "\n```" = "fix\n```\nx=1\n```")
    ∧ ("fix" ++ "\n" ++ "x=1" ++ "\n" = "fix\nx=1\n") :=
  ⟨(claim5_effectivePrompt ⟨true, true, 60⟩ "fix" "x=1" (by decide)).1 rfl,
   (claim5_effectivePrompt ⟨false, true, 60⟩ "fix" "x=1" (by decide)).2.1 rfl,
   by decide, by decide⟩

/-- Claim C6: in any reachable state with no backend configured where the lazy
`_newAPI` retry also cannot construct one, dispatching any prompt stores and
publishes exactly the literal error string, posts no working-state change, and
ends with the WorkingState field idle (the step function is total, so no
exception is thrown). -/
theorem claim6_noBackendError (st : ProviderState) (p : String) (sel : Option String)
    (v : View) (hr : Reachable st) (hb : st.backend = none)
    (hfail : st.authInfo.bind buildBackend = none) (hv : st.view = some v) :
    (step st (Event.dispatch p sel)).response = some errLiteral
    ∧ postedAfter st (step st (Event.dispatch p sel)) = [Msg.addResponse errLiteral]
    ∧ (step st (Event.dispatch p sel)).workingState = WorkingState.idle := by
  obtain ⟨hresp, hws, _, hview⟩ := dispatch_none_fields st p sel hb hfail
  refine ⟨hresp, ?_, ?_⟩
  · rw [show step st (Event.dispatch p sel) = searchSelection st p sel from rfl]
    simp [postedAfter, viewMsgs, hview v hv, hv, dropLen_append]
  · rw [show step st (Event.dispatch p sel) = searchSelection st p sel from rfl, hws]
    exact reachableIdleInv st hr hb

theorem claim6_noBackendError_witness :
    (step bareViewRun (Event.dispatch "hello" none)).response = some errLiteral
    ∧ postedAfter bareViewRun (step bareViewRun (Event.dispatch "hello" none)) =
        [Msg.addResponse errLiteral]
    ∧ (step bareViewRun (Event.dispatch "hello" none)).workingState = WorkingState.idle :=
  claim6_noBackendError bareViewRun "hello" none ⟨true, []⟩
    ⟨[Event.viewEv true], rfl⟩ rfl rfl rfl

/-- Claim C7: on any rejection of the backend call (error, timeout, or the
abort signal firing), the final response is the accumulated partial text with
the trailer appended, that text is stored and published to the panel, and an
idle working-state message is pushed to the UI. -/
theorem claim7_failureTrailer (st : ProviderState) (i : Nat) (req : PendingReq)
    (e : String) (v : View)
    (hreq : st.pending[i]? = some (some req)) (hv : st.view = some v) :
    (step st (Event.errEv i e)).response = some (req.acc ++ errTrailer e)
    ∧ postedAfter st (step st (Event.errEv i e)) =
        [Msg.setWorkingState WorkingState.idle,
         Msg.addResponse (req.acc ++ errTrailer e)] := by
  constructor <;>
    simp [step, resolveErrFn, hreq, finishPublish, postMsg, showView, postedAfter,
      viewMsgs, hv, List.append_assoc, dropLen_append]

theorem claim7_failureTrailer_witness :
    (step onePromptRun (Event.errEv 0 "boom")).response = some ("" ++ errTrailer "boom")
    ∧ postedAfter onePromptRun (step onePromptRun (Event.errEv 0 "boom")) =
        [Msg.setWorkingState WorkingState.idle,
         Msg.addResponse ("" ++ errTrailer "boom")] :=
  claim7_failureTrailer onePromptRun 0 ⟨1, "A", 0, none, 60000, ""⟩ "boom"
    ⟨true, [Msg.setPrompt (some "A"), Msg.setWorkingState WorkingState.asking]⟩ rfl rfl

/-- Claim C8: `abort` immediately posts an idle working state to the UI with
no generation check, signals the live cancellation token, and replaces it with
a fresh, unsignalled token, so a prompt dispatched after the abort captures
the new token, which is not signalled. -/
theorem claim8_abortToken (st : ProviderState) (v : View) (p : String)
    (sel : Option String) (b : ChatBackend)
    (hv : st.view = some v) (hb : st.backend = some b)
    (hsig : ∀ x ∈ st.signalled, x < st.ctrlId) :
    postedAfter st (step st Event.abortEv) = [Msg.setWorkingState WorkingState.idle]
    ∧ st.ctrlId ∈ (step st Event.abortEv).signalled
    ∧ (step st Event.abortEv).ctrlId ∉ (step st Event.abortEv).signalled
    ∧ (step (step st Event.abortEv) (Event.dispatch p sel)).pending[st.pending.length]? =
        some (some
          { gen := st.currentMessageNumber + 1
            sentPrompt := buildSearchPrompt st.settings p sel
            tokenId := st.ctrlId + 1
            conv := st.conversation
            timeoutMs := (if st.settings.timeoutLength = 0 then 60
                          else st.settings.timeoutLength) * 1000
            acc := "" }) := by
  refine ⟨?_, ?_, ?_, ?_⟩
  · simp [step, abortFn, postMsg, postedAfter, viewMsgs, hv, dropLen_append]
  · exact List.mem_cons_self _ _
  · simp only [step, abortFn, postMsg]
    intro hmem
    rcases List.mem_cons.mp hmem with hh | hh
    · omega
    · exact absurd (hsig _ hh) (by omega)
  · have hfields := dispatch_some_fields (step st Event.abortEv) p sel b hb
    rw [show step (step st Event.abortEv) (Event.dispatch p sel) =
          searchSelection (step st Event.abortEv) p sel from rfl, hfields.1]
    exact getLen_append st.pending _ []

theorem claim8_abortToken_witness :
    postedAfter onePromptRun (step onePromptRun Event.abortEv) =
      [Msg.setWorkingState WorkingState.idle]
    ∧ onePromptRun.ctrlId ∈ (step onePromptRun Event.abortEv).signalled
    ∧ (step onePromptRun Event.abortEv).ctrlId ∉ (step onePromptRun Event.abortEv).signalled
    ∧ (step (step onePromptRun Event.abortEv) (Event.dispatch "q" none)).pending[onePromptRun.pending.length]? =
        some (some
          { gen := onePromptRun.currentMessageNumber + 1
            sentPrompt := buildSearchPrompt onePromptRun.settings "q" none
            tokenId := onePromptRun.ctrlId + 1
            conv := onePromptRun.conversation
            timeoutMs := (if onePromptRun.settings.timeoutLength = 0 then 60
                          else onePromptRun.settings.timeoutLength) * 1000
            acc := "" }) :=
  claim8_abortToken onePromptRun
    ⟨true, [Msg.setPrompt (some "A"), Msg.setWorkingState WorkingState.asking]⟩
    "q" none (ChatBackend.direct "k") rfl rfl (by decide)

/-- Claim C9: a configuration change to `selectedInsideCodeblock`,
`keepConversation`, or `timeoutLength` alone merge-patches exactly that one
Settings field, leaving every other part of the provider state (backend,
conversation handle, generation counter, prompt/response text, view, tokens)
unchanged; a change to an auth key (`mode`, `apiKey`, `accessToken`,
`proxyUrl`) rebuilds the backend and resets the session (conversation handle
cleared, generation counter zero, prompt and response cleared), leaving
Settings unchanged. -/
theorem claim9_configFrame (st : ProviderState) (v1 v2 : Option Bool) (v3 : Option Nat)
    (c : RawConfig) (b : ChatBackend)
    (hbuild : buildBackend (authFromConfig c) = some b) :
    step st (Event.cfgEv (CfgEvent.codeblockChanged v1)) =
      { st with settings := { st.settings with selectedInsideCodeblock := v1.getD false } }
    ∧ step st (Event.cfgEv (CfgEvent.keepChanged v2)) =
      { st with settings := { st.settings with keepConversation := v2.getD false } }
    ∧ step st (Event.cfgEv (CfgEvent.timeoutChanged v3)) =
      { st with settings := { st.settings with timeoutLength := jsOrNat v3 60 } }
    ∧ (step st (Event.cfgEv (CfgEvent.authChanged c))).backend = some b
    ∧ (step st (Event.cfgEv (CfgEvent.authChanged c))).conversation = none
    ∧ (step st (Event.cfgEv (CfgEvent.authChanged c))).currentMessageNumber = 0
    ∧ (step st (Event.cfgEv (CfgEvent.authChanged c))).prompt = some ""
    ∧ (step st (Event.cfgEv (CfgEvent.authChanged c))).response = some ""
    ∧ (step st (Event.cfgEv (CfgEvent.authChanged c))).settings = st.settings := by
  refine ⟨rfl, rfl, rfl, ?_, rfl, rfl, rfl, rfl, rfl⟩
  simp only [step, onConfigChange, resetConversationFn_backend, setAuthenticationInfo,
    newAPIFn, Option.bind, hbuild]

theorem claim9_configFrame_witness :
    step initState (Event.cfgEv (CfgEvent.codeblockChanged (some true))) =
      { initState with settings :=
          { initState.settings with selectedInsideCodeblock := (some true).getD false } }
    ∧ (step initState (Event.cfgEv (CfgEvent.authChanged
          ⟨some "ChatGPTAPI", some "k", none, none, none⟩))).backend =
        some (ChatBackend.direct "k")
    ∧ (step initState (Event.cfgEv (CfgEvent.authChanged
          ⟨some "ChatGPTAPI", some "k", none, none, none⟩))).conversation = none :=
  have h := claim9_configFrame initState (some true) none none
    ⟨some "ChatGPTAPI", some "k", none, none, none⟩ (ChatBackend.direct "k") rfl
  ⟨h.1, h.2.2.2.1, h.2.2.2.2.1⟩

/-- Claim C10: a progress chunk for the current generation is forwarded to the
UI and recorded in the accumulator only when the webview exists and is
visible; while the panel is hidden (or absent) the chunk leaves the state
completely unchanged, so it is absent from the accumulator and hence from any
later partial+error final response. -/
theorem claim10_progressVisibility (st : ProviderState) (i : Nat) (req : PendingReq)
    (t : String)
    (hreq : st.pending[i]? = some (some req))
    (hcur : req.gen = st.currentMessageNumber) :
    (∀ v, st.view = some v → v.visible = true →
        (step st (Event.progressEv i t)).pending[i]? = some (some { req with acc := t })
        ∧ postedAfter st (step st (Event.progressEv i t)) = [Msg.addResponse t])
    ∧ (∀ v, st.view = some v → v.visible = false → step st (Event.progressEv i t) = st)
    ∧ (st.view = none → step st (Event.progressEv i t) = st) := by
  have hlt : i < st.pending.length := lt_of_getElem?_some _ _ _ hreq
  refine ⟨fun v hv hvis => ⟨?_, ?_⟩, fun v hv hvis => ?_, fun hv => ?_⟩
  · simp only [step, progressFn, hreq]
    rw [if_neg (by rw [hcur]; exact fun hx => hx rfl)]
    rw [if_pos (by simp [viewVisible, hv, hvis])]
    simp only [postMsg]
    exact getElem?_set_self st.pending i _ hlt
  · simp only [step, progressFn, hreq]
    rw [if_neg (by rw [hcur]; exact fun hx => hx rfl)]
    rw [if_pos (by simp [viewVisible, hv, hvis])]
    simp [postedAfter, viewMsgs, postMsg, hv, dropLen_append]
  · simp only [step, progressFn, hreq]
    rw [if_neg (by rw [hcur]; exact fun hx => hx rfl)]
    rw [if_neg (by simp [viewVisible, hv, hvis])]
  · simp only [step, progressFn, hreq]
    rw [if_neg (by rw [hcur]; exact fun hx => hx rfl)]
    rw [if_neg (by simp [viewVisible, hv])]

theorem claim10_progressVisibility_witness :
    (step onePromptRun (Event.progressEv 0 "chunk")).pending[(0 : Nat)]? =
      some (some { gen := 1, sentPrompt := "A", tokenId := 0, conv := none,
                   timeoutMs := 60000, acc := "chunk" })
    ∧ postedAfter onePromptRun (step onePromptRun (Event.progressEv 0 "chunk")) =
        [Msg.addResponse "chunk"] :=
  (claim10_progressVisibility onePromptRun 0 ⟨1, "A", 0, none, 60000, ""⟩ "chunk"
    rfl rfl).1 ⟨true, [Msg.setPrompt (some "A"), Msg.setWorkingState WorkingState.asking]⟩
    rfl rfl

/-- On settlement of any pending request (stale or current), the first
message posted is `setWorkingState idle`. -/
theorem resolveOk_posts_idle (st : ProviderState) (i : Nat) (req : PendingReq)
    (r : ChatResult) (v : View) (hreq : st.pending[i]? = some (some req))
    (hv : st.view = some v) :
    (postedAfter st (resolveOkFn st i r)).head? =
      some (Msg.setWorkingState WorkingState.idle) := by
  simp only [resolveOkFn, hreq]
  split_ifs <;>
    simp [postedAfter, viewMsgs, postMsg, showView, finishPublish, hv,
      dropLen_append, List.append_assoc]

/-- Counterexample to claim C1 as stated: with prompts A (generation 1) and B
(generation 2) both in flight, the settlement of the stale generation 1 is
not a no-op on the state pushed to the UI — it posts `setWorkingState idle` —
and after the settlement of the most recent generation 2 the provider's
internal working-state field is still `asking`, so the Asking-to-Idle
transition is not reflected in the internal field. -/
theorem claim1_counterexample :
    viewMsgs (step twoPromptRun (Event.okEv 0 resM)) =
      viewMsgs twoPromptRun ++ [Msg.setWorkingState WorkingState.idle]
    ∧ (step (step twoPromptRun (Event.okEv 0 resM)) (Event.okEv 1 resM)).workingState =
        WorkingState.asking := ⟨rfl, rfl⟩

/-- Claim C1 (amended): every dispatch with a backend increments the
message-number generation and sets WorkingState to Asking both in the
internal field and in the state pushed to the UI; but when any request
settles — stale or current — a `setWorkingState idle` message is posted to
the UI unconditionally, and no settlement ever updates the internal
working-state field. -/
theorem claim1_amendedSettlement (st : ProviderState) (i : Nat) (req : PendingReq)
    (r : ChatResult) (e p : String) (sel : Option String) (b : ChatBackend) (v : View)
    (hreq : st.pending[i]? = some (some req)) (hb : st.backend = some b)
    (hv : st.view = some v) :
    (step st (Event.dispatch p sel)).currentMessageNumber = st.currentMessageNumber + 1
    ∧ (step st (Event.dispatch p sel)).workingState = WorkingState.asking
    ∧ postedAfter st (step st (Event.dispatch p sel)) =
        [Msg.setPrompt (some p), Msg.setWorkingState WorkingState.asking]
    ∧ (step st (Event.okEv i r)).workingState = st.workingState
    ∧ (step st (Event.errEv i e)).workingState = st.workingState
    ∧ (postedAfter st (step st (Event.okEv i r))).head? =
        some (Msg.setWorkingState WorkingState.idle)
    ∧ (postedAfter st (step st (Event.errEv i e))).head? =
        some (Msg.setWorkingState WorkingState.idle) := by
  have hd := dispatch_some_fields st p sel b hb
  have hm := dispatch_some_msgs st p sel b v hb hv
  refine ⟨hd.2.1, hd.2.2.1, ?_, (resolveOkFn_frame st i r).1,
    (resolveErrFn_frame st i e).1, ?_, ?_⟩
  · rw [show step st (Event.dispatch p sel) = searchSelection st p sel from rfl]
    simp [postedAfter, viewMsgs, hm, hv, dropLen_append]
  · rw [show step st (Event.okEv i r) = resolveOkFn st i r from rfl]
    exact resolveOk_posts_idle st i req r v hreq hv
  · rw [show step st (Event.errEv i e) = resolveErrFn st i e from rfl]
    simp [resolveErrFn, hreq, finishPublish, postMsg, showView, postedAfter,
      viewMsgs, hv, List.append_assoc, dropLen_append]

theorem claim1_amendedSettlement_witness :
    (step onePromptRun (Event.okEv 0 resM)).workingState = onePromptRun.workingState
    ∧ (postedAfter onePromptRun (step onePromptRun (Event.okEv 0 resM))).head? =
        some (Msg.setWorkingState WorkingState.idle) :=
  have h := claim1_amendedSettlement onePromptRun 0 ⟨1, "A", 0, none, 60000, ""⟩
    resM "boom" "B" none (ChatBackend.direct "k")
    ⟨true, [Msg.setPrompt (some "A"), Msg.setWorkingState WorkingState.asking]⟩
    rfl rfl rfl
  ⟨h.2.2.2.1, h.2.2.2.2.2.1⟩

/-- Counterexample to claim C2 as stated: with prompts A (generation 1) and B
(generation 2) both in flight, A's late settlement is not discarded without
publishing anything: a stale fulfilment still posts `setWorkingState idle`,
and a stale rejection — which has no staleness check at all — publishes A's
error trailer to the panel and overwrites the stored response text after B
has begun. -/
theorem claim2_counterexample :
    postedAfter twoPromptRun (step twoPromptRun (Event.errEv 0 "boom")) =
      [Msg.setWorkingState WorkingState.idle, Msg.addResponse "\n\n---\n[ERROR] boom"]
    ∧ (step twoPromptRun (Event.errEv 0 "boom")).response = some "\n\n---\n[ERROR] boom"
    ∧ postedAfter twoPromptRun (step twoPromptRun (Event.okEv 0 resM)) =
        [Msg.setWorkingState WorkingState.idle] := ⟨rfl, rfl, rfl⟩

/-- Claim C2 (amended): after B supersedes A, A's progress callbacks are fully
suppressed (the state is completely unchanged, so nothing is shown and
nothing is accumulated); A's successful completion publishes no response
message and leaves the conversation and stored response unchanged, though it
does post a `setWorkingState idle` message; A's failing completion however is
not suppressed: it stores and publishes A's accumulated text with the error
trailer. -/
theorem claim2_amendedSuppression (st : ProviderState) (i : Nat) (req : PendingReq)
    (t e : String) (r : ChatResult) (v : View)
    (hreq : st.pending[i]? = some (some req))
    (hstale : req.gen ≠ st.currentMessageNumber)
    (hv : st.view = some v) :
    step st (Event.progressEv i t) = st
    ∧ step st (Event.okEv i r) =
        { st with
            view := some { v with msgs := v.msgs ++ [Msg.setWorkingState WorkingState.idle] }
            pending := st.pending.set i none }
    ∧ (step st (Event.errEv i e)).response = some (req.acc ++ errTrailer e)
    ∧ postedAfter st (step st (Event.errEv i e)) =
        [Msg.setWorkingState WorkingState.idle,
         Msg.addResponse (req.acc ++ errTrailer e)] := by
  refine ⟨?_, ?_, ?_, ?_⟩
  · simp only [step, progressFn, hreq]
    rw [if_pos (Ne.symm hstale)]
  · simp only [step, resolveOkFn, hreq, postMsg]
    rw [if_pos (Ne.symm hstale)]
    simp [hv]
  · rw [show step st (Event.errEv i e) = resolveErrFn st i e from rfl]
    simp [resolveErrFn, hreq, finishPublish, postMsg, showView]
  · rw [show step st (Event.errEv i e) = resolveErrFn st i e from rfl]
    simp [resolveErrFn, hreq, finishPublish, postMsg, showView, postedAfter,
      viewMsgs, hv, List.append_assoc, dropLen_append]

theorem claim2_amendedSuppression_witness :
    step twoPromptRun (Event.progressEv 0 "late chunk") = twoPromptRun :=
  (claim2_amendedSuppression twoPromptRun 0 ⟨1, "A", 0, none, 60000, ""⟩
    "late chunk" "boom" resM
    ⟨true, [Msg.setPrompt (some "A"), Msg.setWorkingState WorkingState.asking,
            Msg.setPrompt (some "B"), Msg.setWorkingState WorkingState.asking]⟩
    rfl (by decide) rfl).1

/-- Counterexample to claim C3 as stated: re-applying the auth configuration
while generation 1 is outstanding clears the ConversationHandle and resets the
counter to 0 — but after one new request is dispatched post-rebuild, the
counter is back at 1, so the stale generation-1 result passes the currency
check and overwrites the cleared conversation state. -/
theorem claim3_counterexample :
    rebuildRun.conversation = none
    ∧ rebuildRun.currentMessageNumber = 0
    ∧ abaRun.conversation = none
    ∧ (step abaRun (Event.okEv 0 resM)).conversation = some ⟨some "c", "m"⟩ :=
  ⟨rfl, rfl, rfl, rfl⟩

/-- Claim C3 (amended): rebuilding the backend clears the ConversationHandle
and resets the generation counter to 0; a stale generation-G result leaves the
conversation and response state untouched exactly when the current message
number differs from G at its arrival — in particular when no new request has
been dispatched since the rebuild.  (Because the counter restarts at 0, the
stale result is treated as current if exactly G dispatches have happened
since the rebuild: see the counterexample.) -/
theorem claim3_amendedStaleness (st : ProviderState) (a : AuthInfo) (i : Nat)
    (req : PendingReq) (r : ChatResult)
    (hreq : st.pending[i]? = some (some req))
    (hne : req.gen ≠ st.currentMessageNumber) :
    (setAuthenticationInfo st a).conversation = none
    ∧ (setAuthenticationInfo st a).currentMessageNumber = 0
    ∧ (step st (Event.okEv i r)).conversation = st.conversation
    ∧ (step st (Event.okEv i r)).response = st.response := by
  refine ⟨rfl, rfl, ?_, ?_⟩ <;>
  · simp only [step, resolveOkFn, hreq, postMsg]
    rw [if_pos (Ne.symm hne)]

theorem claim3_amendedStaleness_witness :
    (setAuthenticationInfo rebuildRun authA).conversation = none
    ∧ (step rebuildRun (Event.okEv 0 resM)).conversation = rebuildRun.conversation :=
  have h := claim3_amendedStaleness rebuildRun authA 0 ⟨1, "G", 0, none, 60000, ""⟩
    resM rfl (by decide)
  ⟨h.1, h.2.2.1⟩

/-- Counterexample to claim C4 as stated: after a successful response stored
the handle under `keepConversation = true`, toggling `keepConversation` to
`false` does not clear the handle, so the next request is dispatched with the
old conversation identifiers rather than an empty handle. -/
theorem claim4_counterexample :
    toggleRun.settings.keepConversation = false
    ∧ toggleRun.pending[(1 : Nat)]? =
        some (some ⟨2, "p2", 0, some ⟨some "c", "m"⟩, 60000, ""⟩) := ⟨rfl, rfl⟩

/-- Claim C4 (amended): after a successful non-stale response, if
`keepConversation` is true the returned identifiers are stored as the new
ConversationHandle; if it is false the handle is simply left as it was (not
cleared).  The next request always carries whatever handle is currently
stored, so it is empty only if the handle was already clear (never stored, or
cleared by a reset/rebuild) — not merely because `keepConversation` was
toggled off. -/
theorem claim4_amendedConversation (st : ProviderState) (i : Nat) (req : PendingReq)
    (r : ChatResult) (p : String) (sel : Option String) (b : ChatBackend)
    (hreq : st.pending[i]? = some (some req))
    (hcur : req.gen = st.currentMessageNumber)
    (hb : st.backend = some b) :
    (st.settings.keepConversation = true →
        (step st (Event.okEv i r)).conversation = some ⟨r.conversationId, r.id⟩)
    ∧ (st.settings.keepConversation = false →
        (step st (Event.okEv i r)).conversation = st.conversation)
    ∧ (step st (Event.dispatch p sel)).pending[st.pending.length]? =
        some (some
          { gen := st.currentMessageNumber + 1
            sentPrompt := buildSearchPrompt st.settings p sel
            tokenId := st.ctrlId
            conv := st.conversation
            timeoutMs := (if st.settings.timeoutLength = 0 then 60
                          else st.settings.timeoutLength) * 1000
            acc := "" }) := by
  refine ⟨fun hkeep => ?_, fun hkeep => ?_, ?_⟩
  · simp only [step, resolveOkFn, hreq, postMsg]
    rw [if_neg (fun hx => hx hcur.symm)]
    simp [finishPublish, postMsg, showView, hkeep]
  · simp only [step, resolveOkFn, hreq, postMsg]
    rw [if_neg (fun hx => hx hcur.symm)]
    simp [finishPublish, postMsg, showView, hkeep]
  · have hfields := dispatch_some_fields st p sel b hb
    rw [show step st (Event.dispatch p sel) = searchSelection st p sel from rfl, hfields.1]
    exact getLen_append st.pending _ []

theorem claim4_amendedConversation_witness :
    (step keepRun (Event.okEv 0 resM)).conversation = some ⟨resM.conversationId, resM.id⟩ :=
  (claim4_amendedConversation keepRun 0 ⟨1, "p1", 0, none, 60000, ""⟩ resM "p2" none
    (ChatBackend.direct "k") rfl rfl rfl).1 rfl

end ChatGPTExtension
